import Mathlib

/-!
Shallow embedding of the engine-detection core of `src/analyzers/engine-detector.ts`
(the multi-signal classification core: signature matchers, confidence scorer,
classifier selection loop, capability prober and the profile registry).

Modelling conventions:
* A `Snapshot` is the read-only view of the inspected document: script elements,
  canvas elements (in tree order, so `document.querySelector('canvas')` is the
  head of the list), the generic element tree used for class/id/attribute
  queries, the serialized `documentElement.innerHTML`, and the window globals
  the deep-analysis closures read.
* JavaScript numbers are modelled by `JSNum`: an exact rational, NaN, or
  Infinity.  The only arithmetic the core performs is `matches / total` and
  `>` comparisons; `jsDiv`/`jsGt` reproduce the JS semantics on that fragment
  (`0/0` is NaN, comparisons against NaN are false).
* `canvas.getContext(kind)` is modelled as a capability lookup: a canvas
  carries the (optional) context each kind would yield.
* Promise rejection (an `analyze` closure throwing) is modelled by
  `Except String`; `detectEngine` contains no handler, so a rejection
  propagates out of the loop, exactly as in the source.
-/

namespace WebGLMCP

/-- JavaScript number as used by this core: exact rational, NaN or Infinity. -/
inductive JSNum where
  | num (q : ℚ)
  | nan
  | inf
deriving DecidableEq

/-- JS division `m / t` on the naturals produced by the scorer counters:
`0/0` is NaN, `m/0` with `m ≠ 0` is Infinity, otherwise the exact quotient. -/
def jsDiv (m t : Nat) : JSNum :=
  if t = 0 then (if m = 0 then JSNum.nan else JSNum.inf) else JSNum.num ((m : ℚ) / (t : ℚ))

/-- JS strict `>` on numbers: any comparison involving NaN is false. -/
def jsGt : JSNum → JSNum → Bool
  | JSNum.num a, JSNum.num b => decide (b < a)
  | JSNum.inf, JSNum.num _ => true
  | JSNum.num _, JSNum.inf => false
  | JSNum.inf, JSNum.inf => false
  | JSNum.nan, _ => false
  | _, JSNum.nan => false

/-- JS `String.prototype.includes`: substring containment. -/
def strIncludes (s pat : String) : Bool :=
  (List.range (s.data.length + 1)).any (fun i => pat.data.isPrefixOf (s.data.drop i))

/-- The `type` discriminator of `EngineSignature` in the source. -/
inductive SignatureType where
  | canvas
  | webgl
  | dom
  | script
  | html
deriving DecidableEq

/-- The `size` payload of a canvas signature (`{ width, height }`). -/
structure SigSize where
  width : Int
  height : Int
deriving DecidableEq

/-- `EngineSignature` from the source: a `type` tag plus optional payloads. -/
structure EngineSignature where
  type : SignatureType
  patterns : Option (List String) := none
  size : Option SigSize := none
  shaders : Option (List String) := none
deriving DecidableEq

/-- A live rendering-context handle: its runtime version tier, the set of
extensions `getExtension` can return, and the queryable numeric limits. -/
structure GLContext where
  isWebGL2 : Bool
  extensions : List String
  maxTextureSize : Int
  maxViewportDims : Int × Int
deriving DecidableEq

/-- `gl.getExtension(name)` is non-null exactly when the context carries it. -/
def GLContext.getExtension (gl : GLContext) (name : String) : Bool :=
  gl.extensions.contains name

/-- `WebGLCapabilities` from the source. -/
structure WebGLCapabilities where
  webgl2 : Bool
  floatTextures : Bool
  anisotropicFiltering : Bool
  maxTextureSize : Int
  maxViewportDims : Int × Int
  instancedArrays : Bool
  multiDrawIndirect : Bool
deriving DecidableEq

/-- `EngineDetector.checkWebGLCapabilities` (the Capability Prober). -/
def checkWebGLCapabilities (gl : GLContext) : WebGLCapabilities :=
  let isWebGL2 := gl.isWebGL2
  let ext := gl.getExtension "EXT_texture_filter_anisotropic" ||
             gl.getExtension "WEBKIT_EXT_texture_filter_anisotropic"
  { webgl2 := isWebGL2
    floatTextures := gl.getExtension "OES_texture_float"
    anisotropicFiltering := ext
    maxTextureSize := gl.maxTextureSize
    maxViewportDims := gl.maxViewportDims
    instancedArrays := isWebGL2 || gl.getExtension "ANGLE_instanced_arrays"
    multiDrawIndirect := isWebGL2 && gl.getExtension "WEBGL_multi_draw_indirect" }

/-- A script element: optional inline text and its `src` string. -/
structure ScriptElem where
  textContent : Option String := none
  src : String := ""
deriving DecidableEq

/-- A canvas element: geometry, identity, style, and the context each
`getContext` kind would yield. -/
structure CanvasElem where
  width : Int := 300
  height : Int := 150
  id : String := ""
  className : String := ""
  styleAttr : String := ""
  styleImageRendering : String := ""
  webglCtx : Option GLContext := none
  webgl2Ctx : Option GLContext := none
  ctx2d : Bool := false
deriving DecidableEq

/-- A generic element of the queryable tree (for class/id/attribute lookup). -/
structure DocElement where
  tag : String := ""
  id : String := ""
  classes : List String := []
  attrs : List (String × String) := []
deriving DecidableEq

/-- The `window.unityInstance` global, when present. -/
structure UnityInstance where
  hasAsmMemory : Bool
deriving DecidableEq

/-- The Construct runtime object returned by `cr_getC2Runtime`/`cr_getC3Runtime`. -/
structure ConstructRuntime where
  usesLoaderLayout : Bool
  isInWorker : Bool
deriving DecidableEq

/-- The window globals read by the deep-analysis closures. -/
structure WindowState where
  unityInstance : Option UnityInstance := none
  crossOriginIsolated : Bool := false
  constructRuntime : Option ConstructRuntime := none
  hasWorker : Bool := true
deriving DecidableEq

/-- The document snapshot under inspection. -/
structure Snapshot where
  scripts : List ScriptElem := []
  canvases : List CanvasElem := []
  elements : List DocElement := []
  innerHTML : String := ""
  window : WindowState := {}
deriving DecidableEq

/-- `canvas.getContext('webgl') || canvas.getContext('webgl2')`
(the order used by `matchWebGL`, line 466 of the source). -/
def getContextWebGLFirst (canvas : CanvasElem) : Option GLContext :=
  match canvas.webglCtx with
  | some g => some g
  | none => canvas.webgl2Ctx

/-- `canvas.getContext('webgl2') || canvas.getContext('webgl')`
(the order used by the Unity/Godot/Construct deep-analysis closures). -/
def getContextWebGL2First (canvas : CanvasElem) : Option GLContext :=
  match canvas.webgl2Ctx with
  | some g => some g
  | none => canvas.webglCtx

/-- `document.querySelector('canvas')`: the first canvas in tree order. -/
def firstCanvas (document : Snapshot) : Option CanvasElem :=
  document.canvases.head?

/-- `document.querySelectorAll('[name]')` non-empty: some element has the attribute. -/
def hasAttr (document : Snapshot) (name : String) : Bool :=
  document.elements.any (fun e => e.attrs.any (fun a => a.1 == name))

/-- Some element has attribute `name` with exact value `val`. -/
def hasAttrVal (document : Snapshot) (name val : String) : Bool :=
  document.elements.any (fun e => e.attrs.any (fun a => a.1 == name && a.2 == val))

/-- `document.querySelector('meta[name="viewport"]')` is non-null. -/
def hasViewportMeta (document : Snapshot) : Bool :=
  document.elements.any (fun e =>
    e.tag == "meta" && e.attrs.any (fun a => a.1 == "name" && a.2 == "viewport"))

/-- `document.querySelector('meta[name="viewport"][content*="user-scalable=no"]')`. -/
def hasViewportUserScalableNo (document : Snapshot) : Bool :=
  document.elements.any (fun e =>
    e.tag == "meta" &&
    e.attrs.any (fun a => a.1 == "name" && a.2 == "viewport") &&
    e.attrs.any (fun a => a.1 == "content" && strIncludes a.2 "user-scalable=no"))

/-- `document.querySelectorAll('.passage, .tw-passage').length`. -/
def countPassages (document : Snapshot) : Nat :=
  (document.elements.filter (fun e =>
    e.classes.contains "passage" || e.classes.contains "tw-passage")).length

/-- `EngineDetector.matchCanvas`: only the FIRST canvas in the document is
examined (`document.querySelector('canvas')`). -/
def matchCanvas (signature : EngineSignature) (document : Snapshot) : Bool :=
  match firstCanvas document with
  | none => false
  | some canvas =>
    match signature.size with
    | some size => canvas.width == size.width && canvas.height == size.height
    | none =>
      match signature.patterns with
      | some patterns =>
        patterns.any (fun pattern =>
          strIncludes canvas.id pattern || strIncludes canvas.className pattern)
      | none => true

/-- `EngineDetector.matchWebGL`: the first canvas, with the context obtained
by trying `'webgl'` first and `'webgl2'` second; the shader branch of the
source returns true unconditionally once a context exists. -/
def matchWebGL (signature : EngineSignature) (document : Snapshot) : Bool :=
  match firstCanvas document with
  | none => false
  | some canvas =>
    match getContextWebGLFirst canvas with
    | none => false
    | some _ => if signature.shaders.isSome then true else true

/-- `EngineDetector.matchDOM`: class / id / data-attribute lookup per pattern. -/
def matchDOM (signature : EngineSignature) (document : Snapshot) : Bool :=
  match signature.patterns with
  | none => false
  | some patterns =>
    patterns.any (fun pattern =>
      document.elements.any (fun e =>
        e.classes.contains pattern || e.id == pattern ||
        e.attrs.any (fun a => a.1 == "data-" ++ pattern)))

/-- `EngineDetector.matchScript`: substring of any script's inline text or src. -/
def matchScript (signature : EngineSignature) (document : Snapshot) : Bool :=
  match signature.patterns with
  | none => false
  | some patterns =>
    patterns.any (fun pattern =>
      document.scripts.any (fun script =>
        (match script.textContent with
         | some t => strIncludes t pattern
         | none => false) ||
        strIncludes script.src pattern))

/-- `EngineDetector.matchHTML`: substring of `documentElement.innerHTML`. -/
def matchHTML (signature : EngineSignature) (document : Snapshot) : Bool :=
  match signature.patterns with
  | none => false
  | some patterns => patterns.any (fun pattern => strIncludes document.innerHTML pattern)

/-- The `switch (signature.type)` dispatch inside `calculateConfidence`. -/
def matchSignature (signature : EngineSignature) (document : Snapshot) : Bool :=
  match signature.type with
  | SignatureType.canvas => matchCanvas signature document
  | SignatureType.webgl => matchWebGL signature document
  | SignatureType.dom => matchDOM signature document
  | SignatureType.script => matchScript signature document
  | SignatureType.html => matchHTML signature document

/-- A `GameEngine` profile: name, signatures, static recommendations and the
deep-analysis closure (which may reject, modelled by `Except`). -/
structure GameEngine where
  name : String
  signatures : List EngineSignature
  recommendations : List String
  analyze : Snapshot → Except String (List String)

/-- Number of a profile's signatures matching the snapshot (the source counts
with a loop counter `matches`; this is the same count as a filter length). -/
def matchCountOf (engine : GameEngine) (document : Snapshot) : Nat :=
  (engine.signatures.filter (fun signature => matchSignature signature document)).length

/-- `EngineDetector.calculateConfidence`: `matches / total` in JS arithmetic
(`total` is the signature count, incremented once per signature). -/
def calculateConfidence (engine : GameEngine) (document : Snapshot) : JSNum :=
  jsDiv (matchCountOf engine document) engine.signatures.length

/-- `EngineDetectionResult` as assembled by `detectEngine` (the optional
`performance` field of the interface is never populated there and is omitted). -/
structure EngineDetectionResult where
  engineName : String
  confidence : JSNum
  features : List String
  recommendations : List String
  warnings : List String
deriving DecidableEq

/-- `EngineDetector.detectFeatures`: the per-engine feature switch. -/
def detectFeatures (engine : GameEngine) (document : Snapshot) : List String :=
  match engine.name with
  | "Bitsy" =>
    (if document.canvases.any (fun c => strIncludes c.styleAttr "image-rendering")
     then ["Pixel-perfect scaling"] else []) ++
    (if hasAttr document "ontouchstart" then ["Touch input support"] else [])
  | "Twine" =>
    (if hasAttr document "role" then ["Accessibility support"] else []) ++
    (if hasAttr document "data-save" then ["Save system"] else [])
  | "PICO-8" =>
    (if (match firstCanvas document with
         | some c => (getContextWebGLFirst c).isSome
         | none => false)
     then ["WebGL rendering"] else ["Canvas 2D fallback"]) ++
    (if hasAttr document "ontouchstart" then ["Mobile controls"] else [])
  | "PuzzleScript" =>
    (if document.canvases.any (fun c => c.id == "gameCanvas")
     then ["Standard canvas setup"] else []) ++
    (if hasAttr document "data-undo" then ["Undo support"] else [])
  | "TIC-80" =>
    (if document.canvases.any (fun c => c.width == 240)
     then ["Native resolution"] else []) ++
    (if hasAttr document "data-gamepad" then ["Gamepad support"] else [])
  | _ => []

/-- The body of `EngineDetector.detectEngine`: fold over the registry carrying
the running best result and the running best confidence.  There is no handler
around `engine.analyze`, so a rejection propagates (`Except.error`). -/
def detectLoop (document : Snapshot) :
    List GameEngine → Option EngineDetectionResult → JSNum →
    Except String (Option EngineDetectionResult)
  | [], bestMatch, _ => Except.ok bestMatch
  | engine :: rest, bestMatch, highestConfidence =>
    let confidence := calculateConfidence engine document
    if jsGt confidence highestConfidence then
      match engine.analyze document with
      | Except.error e => Except.error e
      | Except.ok warnings =>
        detectLoop document rest
          (some { engineName := engine.name
                  confidence := confidence
                  features := detectFeatures engine document
                  recommendations := engine.recommendations
                  warnings := warnings })
          confidence
    else
      detectLoop document rest bestMatch highestConfidence

/-- `detectEngine` run against an explicit registry (the loop of the source
with the registry as a parameter). -/
def detectEngineWith (engineList : List GameEngine) (document : Snapshot) :
    Except String (Option EngineDetectionResult) :=
  detectLoop document engineList none (JSNum.num 0)

/-- The Unity profile's `analyze` closure. -/
def unityAnalyze (document : Snapshot) : Except String (List String) := Except.ok <|
  match document.canvases.find? (fun c => c.id == "unity-canvas") with
  | none => []
  | some canvas =>
    (match getContextWebGL2First canvas with
     | none => []
     | some gl =>
       let capabilities := checkWebGLCapabilities gl
       (if !capabilities.webgl2
        then ["WebGL 2.0 not available, falling back to WebGL 1.0"] else []) ++
       (if !capabilities.instancedArrays
        then ["GPU instancing not supported, performance may be impacted"] else []) ++
       (if capabilities.maxTextureSize < 4096
        then ["Limited texture size support, consider texture atlasing"] else [])) ++
    (match document.window.unityInstance with
     | none => []
     | some ui =>
       if !ui.hasAsmMemory then ["WebAssembly memory management not detected"] else [])

/-- The Godot profile's `analyze` closure. -/
def godotAnalyze (document : Snapshot) : Except String (List String) := Except.ok <|
  match document.canvases.find? (fun c => c.id == "godot-canvas") with
  | none => []
  | some canvas =>
    (match getContextWebGL2First canvas with
     | none => []
     | some gl =>
       let capabilities := checkWebGLCapabilities gl
       (if !capabilities.webgl2
        then ["WebGL 2.0 not available, GLES3 features will be limited"] else []) ++
       (if !capabilities.floatTextures
        then ["Float textures not supported, HDR effects will be limited"] else []) ++
       (if capabilities.maxTextureSize < 8192
        then ["Limited texture size, consider enabling texture streaming"] else [])) ++
    (if !(hasViewportMeta document)
     then ["Viewport meta tag not found, mobile scaling may be incorrect"] else []) ++
    (if !document.window.crossOriginIsolated
     then ["Cross-Origin Isolation not enabled, threading unavailable"] else [])

/-- The Construct profile's `analyze` closure. -/
def constructAnalyze (document : Snapshot) : Except String (List String) := Except.ok <|
  match firstCanvas document with
  | none => []
  | some canvas =>
    (match getContextWebGL2First canvas with
     | some gl =>
       let capabilities := checkWebGLCapabilities gl
       (if !capabilities.instancedArrays
        then ["Instancing not supported, sprite batching will be limited"] else []) ++
       (if !capabilities.anisotropicFiltering
        then ["Anisotropic filtering not available, texture quality may be reduced"] else [])
     | none => ["WebGL not available, falling back to Canvas2D"]) ++
    (match document.window.constructRuntime with
     | none => []
     | some runtime =>
       (if !runtime.usesLoaderLayout then ["Loading screen not implemented"] else []) ++
       (if runtime.isInWorker && !document.window.hasWorker
        then ["Web Workers not supported, physics performance may be impacted"] else []))

/-- The GDevelop profile's `analyze` closure. -/
def gdevelopAnalyze (document : Snapshot) : Except String (List String) := Except.ok <|
  match document.canvases.find? (fun c => c.id == "game-canvas") with
  | none => []
  | some canvas =>
    (if canvas.webglCtx.isNone
     then ["WebGL not available, performance may be impacted"] else []) ++
    (if !(hasViewportUserScalableNo document)
     then ["Mobile viewport not properly configured"] else [])

/-- The Bitsy profile's `analyze` closure. -/
def bitsyAnalyze (document : Snapshot) : Except String (List String) := Except.ok <|
  match firstCanvas document with
  | none => []
  | some canvas =>
    (if canvas.width != 512 || canvas.height != 512
     then ["Non-standard Bitsy canvas size detected"] else []) ++
    (if canvas.styleImageRendering == ""
     then ["Pixel-perfect scaling not enabled"] else [])

/-- The Twine profile's `analyze` closure. -/
def twineAnalyze (document : Snapshot) : Except String (List String) := Except.ok <|
  (if countPassages document > 100
   then ["Large number of passages may impact performance"] else []) ++
  (if !(hasAttrVal document "role" "main")
   then ["Missing ARIA roles for accessibility"] else [])

/-- The PICO-8 profile's `analyze` closure. -/
def pico8Analyze (document : Snapshot) : Except String (List String) := Except.ok <|
  match firstCanvas document with
  | none => []
  | some canvas =>
    (if (getContextWebGLFirst canvas).isNone
     then ["WebGL not available, using Canvas 2D fallback"] else []) ++
    (if canvas.width != 128 || canvas.height != 128
     then ["Non-standard PICO-8 resolution detected"] else [])

/-- The PuzzleScript profile's `analyze` closure. -/
def puzzlescriptAnalyze (document : Snapshot) : Except String (List String) := Except.ok <|
  match document.canvases.find? (fun c => c.id == "gameCanvas") with
  | none => []
  | some canvas =>
    (if !canvas.ctx2d then ["Canvas 2D context not available"] else []) ++
    (if canvas.styleImageRendering == ""
     then ["Pixel-perfect rendering not enabled"] else [])

/-- The TIC-80 profile's `analyze` closure. -/
def tic80Analyze (document : Snapshot) : Except String (List String) := Except.ok <|
  match firstCanvas document with
  | none => []
  | some canvas =>
    (if canvas.width != 240 || canvas.height != 136
     then ["Non-standard TIC-80 resolution detected"] else []) ++
    (if (getContextWebGLFirst canvas).isNone
     then ["WebGL not available, using Canvas 2D fallback"] else [])

/-- `document.querySelector('script[src*="p5"]')?.textContent`. -/
def p5ScriptText (document : Snapshot) : Option String :=
  (document.scripts.find? (fun script => strIncludes script.src "p5")).bind
    (fun script => script.textContent)

/-- The p5.js profile's `analyze` closure. -/
def p5Analyze (document : Snapshot) : Except String (List String) := Except.ok <|
  match firstCanvas document with
  | none => []
  | some canvas =>
    (if canvas.webglCtx.isNone &&
        (match p5ScriptText document with
         | some t => strIncludes t "WEBGL"
         | none => false)
     then ["WebGL mode requested but not available"] else []) ++
    (if !(match p5ScriptText document with
          | some t => strIncludes t "preload"
          | none => false)
     then ["preload() function not detected for asset loading"] else [])

/-- The Unity profile. -/
def unityEngine : GameEngine := {
  name := "Unity"
  signatures := [
    { type := SignatureType.script
      patterns := some ["UnityLoader", "UnityProgress", "buildUrl"] },
    { type := SignatureType.webgl
      patterns := some ["unity-canvas", "unityContainer"] },
    { type := SignatureType.html
      patterns := some ["unity-fullscreen-button", "unity-mobile-warning"] } ]
  recommendations := [
    "Enable WebGL 2.0 for better performance and features",
    "Implement texture compression (DXT/ASTC) for faster loading",
    "Use Unity\x27s progressive loading for large assets",
    "Enable memory defragmentation for WebGL builds",
    "Implement WebAssembly builds for better performance",
    "Configure proper mobile touch input handling",
    "Enable GPU instancing for repeated objects",
    "Use occlusion culling for complex scenes",
    "Implement LOD system for detailed models" ]
  analyze := unityAnalyze }

/-- The Godot profile. -/
def godotEngine : GameEngine := {
  name := "Godot"
  signatures := [
    { type := SignatureType.script
      patterns := some ["GDJS", "godot.js", "godot.wasm"] },
    { type := SignatureType.canvas
      patterns := some ["godot-canvas"] } ]
  recommendations := [
    "Enable GLES3 mode for better WebGL 2.0 support",
    "Use Godot\x27s built-in compression for assets",
    "Enable threading for WebAssembly builds",
    "Implement proper viewport handling for mobile",
    "Use viewport stretch mode \x222d\x22 for pixel-perfect rendering",
    "Enable HDR when using post-processing effects",
    "Use GPU particles for better performance",
    "Enable texture streaming for large textures",
    "Implement proper batching for 2D sprites" ]
  analyze := godotAnalyze }

/-- The Construct profile. -/
def constructEngine : GameEngine := {
  name := "Construct"
  signatures := [
    { type := SignatureType.script
      patterns := some ["c2runtime", "c3runtime", "construct"] },
    { type := SignatureType.canvas
      patterns := some ["construct-canvas"] } ]
  recommendations := [
    "Enable WebGL renderer for better performance",
    "Use texture atlases to reduce draw calls",
    "Enable object pooling for particle effects",
    "Implement proper touch controls for mobile",
    "Use compressed textures when available",
    "Enable worker threads for physics calculations",
    "Implement layer effects optimization",
    "Use zone culling for large levels",
    "Enable background loading for assets" ]
  analyze := constructAnalyze }

/-- The GDevelop profile. -/
def gdevelopEngine : GameEngine := {
  name := "GDevelop"
  signatures := [
    { type := SignatureType.script
      patterns := some ["gdjs", "runtimeGame", "runtimeScene"] },
    { type := SignatureType.canvas
      patterns := some ["game-canvas"] } ]
  recommendations := [
    "Enable WebGL renderer in project settings",
    "Use texture packing for sprites",
    "Implement object pooling for particles",
    "Enable multi-threading when available",
    "Use compressed assets for faster loading",
    "Implement proper mobile touch handling" ]
  analyze := gdevelopAnalyze }

/-- The Bitsy profile. -/
def bitsyEngine : GameEngine := {
  name := "Bitsy"
  signatures := [
    { type := SignatureType.canvas
      size := some { width := 512, height := 512 } },
    { type := SignatureType.script
      patterns := some ["bitsy_title_text", "bitsyOnLoad", "exportedGameData"] },
    { type := SignatureType.html
      patterns := some ["bitsy-gamedata", "gameDataOnLoad"] } ]
  recommendations := [
    "Enable pixel-perfect scaling for best visual quality",
    "Implement touch input support for mobile devices",
    "Verify canvas resolution matches Bitsy\x27s native size (512x512)",
    "Consider adding a loading indicator for game data" ]
  analyze := bitsyAnalyze }

/-- The Twine profile. -/
def twineEngine : GameEngine := {
  name := "Twine"
  signatures := [
    { type := SignatureType.dom
      patterns := some ["passage", "tw-story", "tw-sidebar", "tw-passage"] },
    { type := SignatureType.script
      patterns := some ["SugarCube", "Harlowe", "Snowman", "Story.lookup"] } ]
  recommendations := [
    "Ensure proper text rendering and scaling",
    "Implement accessibility features (ARIA labels, keyboard navigation)",
    "Add save/load functionality",
    "Consider mobile-friendly UI adjustments" ]
  analyze := twineAnalyze }

/-- The PICO-8 profile. -/
def pico8Engine : GameEngine := {
  name := "PICO-8"
  signatures := [
    { type := SignatureType.canvas
      size := some { width := 128, height := 128 } },
    { type := SignatureType.script
      patterns := some ["_pico8_", "pico8_gpio", "pico8_buttons"] },
    { type := SignatureType.webgl
      shaders := some ["pico8_vert", "pico8_frag"] } ]
  recommendations := [
    "Implement WebGL with Canvas 2D fallback",
    "Enable pixel-perfect scaling for authentic look",
    "Monitor cartridge size (stay within 32kb limit)",
    "Add touch controls for mobile support" ]
  analyze := pico8Analyze }

/-- The PuzzleScript profile. -/
def puzzlescriptEngine : GameEngine := {
  name := "PuzzleScript"
  signatures := [
    { type := SignatureType.canvas
      patterns := some ["gameCanvas"] },
    { type := SignatureType.script
      patterns := some ["levelString", "processInput", "titleScreen"] },
    { type := SignatureType.html
      patterns := some ["gameWrapper", "gameContainer"] } ]
  recommendations := [
    "Optimize rule processing for complex puzzles",
    "Implement undo/redo functionality",
    "Add level select capability",
    "Consider mobile touch controls" ]
  analyze := puzzlescriptAnalyze }

/-- The TIC-80 profile. -/
def tic80Engine : GameEngine := {
  name := "TIC-80"
  signatures := [
    { type := SignatureType.canvas
      size := some { width := 240, height := 136 } },
    { type := SignatureType.script
      patterns := some ["TIC", "tic80", "tic"] },
    { type := SignatureType.webgl
      shaders := some ["tic_vert", "tic_frag"] } ]
  recommendations := [
    "Verify 240x136 resolution compliance",
    "Implement WebGL with Canvas 2D fallback",
    "Add touch controls for mobile support",
    "Monitor CPU usage for complex games" ]
  analyze := tic80Analyze }

/-- The p5.js profile. -/
def p5jsEngine : GameEngine := {
  name := "p5.js"
  signatures := [
    { type := SignatureType.script
      patterns := some ["p5.", "setup()", "draw()"] },
    { type := SignatureType.canvas
      patterns := some ["defaultCanvas"] } ]
  recommendations := [
    "Use WebGL mode for 3D or complex 2D graphics",
    "Enable p5.js performance optimizations",
    "Implement proper frame rate management",
    "Use preload() for asset loading",
    "Consider using instance mode for better control" ]
  analyze := p5Analyze }

/-- The `private engines` registry of `EngineDetector`, in registration order. -/
def engines : List GameEngine :=
  [unityEngine, godotEngine, constructEngine, gdevelopEngine, bitsyEngine,
   twineEngine, pico8Engine, puzzlescriptEngine, tic80Engine, p5jsEngine]

/-- `EngineDetector.detectEngine`: the classifier over the built-in registry. -/
def detectEngine (document : Snapshot) : Except String (Option EngineDetectionResult) :=
  detectEngineWith engines document

/-! ### Concrete fixtures used by witnesses and counterexamples -/

/-- A snapshot with an empty element tree, no scripts and no canvases. -/
def emptySnapshot : Snapshot := {}

/-- A WebGL 1 context with no extensions. -/
def gl1NoExt : GLContext :=
  { isWebGL2 := false, extensions := [], maxTextureSize := 4096,
    maxViewportDims := (4096, 4096) }

/-- A WebGL 2 context with no extensions. -/
def gl2NoExt : GLContext :=
  { isWebGL2 := true, extensions := [], maxTextureSize := 8192,
    maxViewportDims := (8192, 8192) }

/-- A default-size canvas yielding a WebGL 1 context. -/
def plainCanvas : CanvasElem := { webglCtx := some gl1NoExt }

/-- A snapshot whose only content is `plainCanvas`. -/
def oneCanvasSnap : Snapshot := { canvases := [plainCanvas] }

/-- A canvas on which both `getContext('webgl')` and `getContext('webgl2')`
would succeed. -/
def dualCtxCanvas : CanvasElem :=
  { webglCtx := some gl1NoExt, webgl2Ctx := some gl2NoExt }

/-- A snapshot whose only content is `dualCtxCanvas`. -/
def dualCtxSnap : Snapshot := { canvases := [dualCtxCanvas] }

/-- A 512×512 canvas. -/
def canvas512 : CanvasElem := { width := 512, height := 512 }

/-- A 100×100 canvas. -/
def canvas100 : CanvasElem := { width := 100, height := 100 }

/-- A snapshot whose single canvas is exactly 512×512. -/
def snap512 : Snapshot := { canvases := [canvas512] }

/-- A snapshot with two canvases: the first 100×100, the second 512×512. -/
def twoCanvasSnap : Snapshot := { canvases := [canvas100, canvas512] }

/-- A bare canvas-presence signature. -/
def canvasPresenceSig : EngineSignature := { type := SignatureType.canvas }

/-- The `CanvasSize{512,512}` signature. -/
def sizeSig512 : EngineSignature :=
  { type := SignatureType.canvas, size := some { width := 512, height := 512 } }

/-- A bare WebGL-probe signature. -/
def webglProbeSig : EngineSignature := { type := SignatureType.webgl }

/-- Tie-break fixture: profile registered first. -/
def engineA0 : GameEngine :=
  { name := "A", signatures := [canvasPresenceSig], recommendations := ["ra"],
    analyze := fun _ => Except.ok [] }

/-- Tie-break fixture: identical signatures, registered second. -/
def engineB0 : GameEngine :=
  { name := "B", signatures := [canvasPresenceSig], recommendations := ["rb"],
    analyze := fun _ => Except.ok [] }

/-- A profile whose deep-analysis closure always rejects. -/
def throwerEngine : GameEngine :=
  { name := "Thrower", signatures := [canvasPresenceSig], recommendations := ["rt"],
    analyze := fun _ => Except.error "context probe failed" }

/-- A profile registered with an empty signature list. -/
def zeroSigEngine : GameEngine :=
  { name := "Empty", signatures := [], recommendations := ["re"],
    analyze := fun _ => Except.ok [] }

/-- A profile whose only signature is `CanvasSize{512,512}`. -/
def canvas512Profile : GameEngine :=
  { name := "Size512", signatures := [sizeSig512], recommendations := ["rs"],
    analyze := fun _ => Except.ok [] }

/-! ### Helper lemmas about the JS-number fragment and the selection loop -/

/-- JS `x > x` is false for every number, including NaN and Infinity. -/
theorem jsGt_irrefl (x : JSNum) : jsGt x x = false := by
  cases x with
  | num q => simp [jsGt]
  | nan => rfl
  | inf => rfl

/-- Any JS comparison with NaN on the left is false. -/
theorem jsGt_nan_left (x : JSNum) : jsGt JSNum.nan x = false := by
  cases x <;> rfl

/-- Scorer evaluation: zero matches over a non-empty signature list score `0`. -/
theorem calcConf_zero (engine : GameEngine) (document : Snapshot)
    (h : matchCountOf engine document = 0) (hne : engine.signatures.length ≠ 0) :
    calculateConfidence engine document = JSNum.num 0 := by
  simp [calculateConfidence, jsDiv, h, hne]

/-- Scorer evaluation: a full match over a non-empty signature list scores `1`. -/
theorem calcConf_one (engine : GameEngine) (document : Snapshot)
    (h : matchCountOf engine document = engine.signatures.length)
    (hne : engine.signatures.length ≠ 0) :
    calculateConfidence engine document = JSNum.num 1 := by
  have : ((engine.signatures.length : ℚ)) ≠ 0 := by exact_mod_cast hne
  simp [calculateConfidence, jsDiv, h, hne, div_self this]

/-- JS `a > b` is false when `a ≤ b` as rationals. -/
theorem jsGt_num_of_le {a b : ℚ} (h : a ≤ b) :
    jsGt (JSNum.num a) (JSNum.num b) = false := by
  simp [jsGt, not_lt, h]

/-- JS `1 > 0` is true. -/
theorem jsGt_one_zero : jsGt (JSNum.num 1) (JSNum.num 0) = true := by
  simp [jsGt]

/-- If `b > a` and `a > 0` in JS, then `b > 0`. -/
theorem jsGt_pos_trans {a b : JSNum}
    (hba : jsGt b a = true) (ha : jsGt a (JSNum.num 0) = true) :
    jsGt b (JSNum.num 0) = true := by
  cases b with
  | num qb =>
    cases a with
    | num qa =>
      simp only [jsGt, decide_eq_true_eq] at hba ha ⊢
      exact ha.trans hba
    | nan => simp [jsGt] at hba
    | inf => simp [jsGt] at hba
  | nan => simp [jsGt_nan_left] at hba
  | inf => rfl

/-! ### C1: the Confidence Scorer -/

/-- C1: for a profile with a non-empty signature list the scorer returns
exactly `matches / totalSignatures` as an exact rational, which lies in
`[0,1]` and is monotonically non-decreasing in the match count (uniform
weights); `Q`/`T` range over any profile of the same signature count and any
snapshot achieving at most as many matches. -/
theorem calculateConfidence_ratio (P Q : GameEngine) (S T : Snapshot)
    (h : P.signatures ≠ [])
    (hlen : Q.signatures.length = P.signatures.length)
    (hm : matchCountOf Q T ≤ matchCountOf P S) :
    calculateConfidence P S =
      JSNum.num ((matchCountOf P S : ℚ) / (P.signatures.length : ℚ)) ∧
    0 ≤ (matchCountOf P S : ℚ) / (P.signatures.length : ℚ) ∧
    (matchCountOf P S : ℚ) / (P.signatures.length : ℚ) ≤ 1 ∧
    (matchCountOf Q T : ℚ) / (Q.signatures.length : ℚ) ≤
      (matchCountOf P S : ℚ) / (P.signatures.length : ℚ) := by
  have hlen0 : P.signatures.length ≠ 0 := by
    simpa [List.length_eq_zero] using h
  have hpos : (0 : ℚ) < (P.signatures.length : ℚ) := by
    exact_mod_cast Nat.pos_of_ne_zero hlen0
  have hle : matchCountOf P S ≤ P.signatures.length :=
    List.length_filter_le _ _
  refine ⟨?_, ?_, ?_, ?_⟩
  · simp [calculateConfidence, jsDiv, hlen0]
  · exact div_nonneg (by positivity) (le_of_lt hpos)
  · rw [div_le_one hpos]
    exact_mod_cast hle
  · rw [hlen]
    exact (div_le_div_iff_of_pos_right hpos).mpr (by exact_mod_cast hm)

/-- Witness for C1 at the Bitsy profile: one of three signatures matches the
512×512 snapshot and none matches the empty snapshot. -/
theorem calculateConfidence_ratio_witness :
    calculateConfidence bitsyEngine snap512 =
      JSNum.num ((matchCountOf bitsyEngine snap512 : ℚ) /
        (bitsyEngine.signatures.length : ℚ)) ∧
    0 ≤ (matchCountOf bitsyEngine snap512 : ℚ) / (bitsyEngine.signatures.length : ℚ) ∧
    (matchCountOf bitsyEngine snap512 : ℚ) / (bitsyEngine.signatures.length : ℚ) ≤ 1 ∧
    (matchCountOf bitsyEngine emptySnapshot : ℚ) / (bitsyEngine.signatures.length : ℚ) ≤
      (matchCountOf bitsyEngine snap512 : ℚ) / (bitsyEngine.signatures.length : ℚ) :=
  calculateConfidence_ratio bitsyEngine bitsyEngine snap512 emptySnapshot
    (by decide) rfl (by decide)

/-! ### C2: tie-breaking in the Classifier -/

/-- C2: the running best is replaced only on strictly greater score, so in a
registry `[A, B]` with identical scores the classifier selects `A` whenever
anything is selected, and never `B`. -/
theorem detectEngine_tiebreak_first (A B : GameEngine) (S : Snapshot) (w : List String)
    (heq : calculateConfidence A S = calculateConfidence B S)
    (hA : A.analyze S = Except.ok w) :
    detectEngineWith [A, B] S =
      Except.ok (if jsGt (calculateConfidence A S) (JSNum.num 0) then
        some { engineName := A.name
               confidence := calculateConfidence A S
               features := detectFeatures A S
               recommendations := A.recommendations
               warnings := w }
        else none) := by
  cases hpos : jsGt (calculateConfidence A S) (JSNum.num 0) with
  | true =>
    simp only [detectEngineWith, detectLoop, hpos, hA, ← heq, jsGt_irrefl]
    simp
  | false =>
    simp only [detectEngineWith, detectLoop, hpos, ← heq]
    simp

/-- Witness for C2: two identical canvas-presence profiles over a one-canvas
snapshot; the first-registered profile `A` wins the tie. -/
theorem detectEngine_tiebreak_first_witness :
    detectEngineWith [engineA0, engineB0] oneCanvasSnap =
      Except.ok (some { engineName := "A"
                        confidence := JSNum.num 1
                        features := []
                        recommendations := ["ra"]
                        warnings := [] }) := by
  rw [detectEngine_tiebreak_first engineA0 engineB0 oneCanvasSnap [] rfl rfl]
  rw [calcConf_one engineA0 oneCanvasSnap (by decide) (by decide)]
  rw [jsGt_one_zero]
  rfl

/-! ### Loop invariants of the Classifier -/

/-- Once the running best is set, the loop can never return "no match". -/
theorem detectLoop_some_ne_none (document : Snapshot) (R : List GameEngine) :
    ∀ (r : EngineDetectionResult) (high : JSNum),
      detectLoop document R (some r) high ≠ Except.ok none := by
  induction R with
  | nil => intro r high h; simp [detectLoop] at h
  | cons engine rest ih =>
    intro r high h
    simp only [detectLoop] at h
    by_cases hc : jsGt (calculateConfidence engine document) high = true
    · rw [if_pos hc] at h
      cases hae : engine.analyze document with
      | error msg => rw [hae] at h; simp at h
      | ok w => rw [hae] at h; exact ih _ _ h
    · rw [if_neg hc] at h
      exact ih r high h

/-- If no profile beats the running best, the loop returns it unchanged. -/
theorem detectLoop_no_positive (document : Snapshot) (R : List GameEngine) :
    ∀ (best : Option EngineDetectionResult) (high : JSNum),
      (∀ e ∈ R, jsGt (calculateConfidence e document) high = false) →
      detectLoop document R best high = Except.ok best := by
  induction R with
  | nil => intro best high _; rfl
  | cons engine rest ih =>
    intro best high hall
    have h1 : jsGt (calculateConfidence engine document) high = false :=
      hall engine (List.mem_cons_self _ _)
    simp only [detectLoop, h1, Bool.false_eq_true, if_false]
    exact ih best high (fun e he => hall e (List.mem_cons_of_mem _ he))

/-- If the loop starting from the empty state returns "no match", then no
profile scored strictly above zero. -/
theorem detectLoop_ok_none_forall (document : Snapshot) (R : List GameEngine) :
    detectLoop document R none (JSNum.num 0) = Except.ok none →
    ∀ e ∈ R, jsGt (calculateConfidence e document) (JSNum.num 0) = false := by
  induction R with
  | nil => intro _ e he; cases he
  | cons engine rest ih =>
    intro h e he
    simp only [detectLoop] at h
    by_cases hc : jsGt (calculateConfidence engine document) (JSNum.num 0) = true
    · rw [if_pos hc] at h
      cases hae : engine.analyze document with
      | error msg => rw [hae] at h; simp at h
      | ok w =>
        rw [hae] at h
        exact absurd h (detectLoop_some_ne_none document rest _ _)
    · rw [if_neg hc] at h
      rcases List.mem_cons.mp he with rfl | he'
      · exact Bool.not_eq_true _ ▸ (Bool.eq_false_iff.mpr hc)
      · exact ih h e he'

/-- Any result the loop returns from a state whose best (if any) carries the
running confidence, itself strictly positive, has strictly positive
confidence. -/
theorem detectLoop_pos_confidence (document : Snapshot) (R : List GameEngine) :
    ∀ (best : Option EngineDetectionResult) (high : JSNum),
      ((best = none ∧ high = JSNum.num 0) ∨
        (∃ r0, best = some r0 ∧ r0.confidence = high ∧
          jsGt high (JSNum.num 0) = true)) →
      ∀ r, detectLoop document R best high = Except.ok (some r) →
        jsGt r.confidence (JSNum.num 0) = true := by
  induction R with
  | nil =>
    intro best high hinv r h
    simp only [detectLoop, Except.ok.injEq] at h
    rcases hinv with ⟨hb, _⟩ | ⟨r0, hb, hconf, hpos⟩
    · rw [hb] at h; cases h
    · rw [hb] at h
      cases h
      rw [hconf]
      exact hpos
  | cons engine rest ih =>
    intro best high hinv r h
    simp only [detectLoop] at h
    by_cases hc : jsGt (calculateConfidence engine document) high = true
    · rw [if_pos hc] at h
      cases hae : engine.analyze document with
      | error msg => rw [hae] at h; simp at h
      | ok w =>
        rw [hae] at h
        have hposc : jsGt (calculateConfidence engine document) (JSNum.num 0) = true := by
          rcases hinv with ⟨_, hh⟩ | ⟨r0, _, _, hpos⟩
          · rw [hh] at hc; exact hc
          · exact jsGt_pos_trans hc hpos
        exact ih _ _ (Or.inr ⟨_, rfl, rfl, hposc⟩) r h
    · rw [if_neg hc] at h
      exact ih best high hinv r h

/-! ### C3: null result exactly when nothing scores above zero -/

/-- C3: the classifier returns null exactly when no profile scores strictly
above 0; it never returns a zero-confidence result; and the built-in registry
yields null on a snapshot with empty tree, no scripts and no canvases. -/
theorem detectEngine_null_iff (R : List GameEngine) (S : Snapshot) :
    (detectEngineWith R S = Except.ok none ↔
      ∀ e ∈ R, jsGt (calculateConfidence e S) (JSNum.num 0) = false) ∧
    (∀ r, detectEngineWith R S = Except.ok (some r) →
      jsGt r.confidence (JSNum.num 0) = true) ∧
    detectEngine emptySnapshot = Except.ok none := by
  refine ⟨⟨detectLoop_ok_none_forall S R, ?_⟩, ?_, ?_⟩
  · intro hall
    exact detectLoop_no_positive S R none (JSNum.num 0) hall
  · intro r h
    exact detectLoop_pos_confidence S R none (JSNum.num 0)
      (Or.inl ⟨rfl, rfl⟩) r h
  · have hall : ∀ e ∈ engines,
        jsGt (calculateConfidence e emptySnapshot) (JSNum.num 0) = false := by
      intro e he
      have h0 : calculateConfidence e emptySnapshot = JSNum.num 0 := by
        simp only [engines, List.mem_cons, List.not_mem_nil, or_false] at he
        rcases he with rfl | rfl | rfl | rfl | rfl | rfl | rfl | rfl | rfl | rfl
        all_goals exact calcConf_zero _ _ (by decide) (by decide)
      rw [h0]
      exact jsGt_num_of_le le_rfl
    exact detectLoop_no_positive emptySnapshot engines none (JSNum.num 0) hall

/-- Witness for C3: the single-profile registry `[engineB0]` scores zero on
the empty snapshot, so classification returns null. -/
theorem detectEngine_null_iff_witness :
    detectEngineWith [engineB0] emptySnapshot = Except.ok none :=
  (detectEngine_null_iff [engineB0] emptySnapshot).1.mpr (by
    intro e he
    simp only [List.mem_singleton] at he
    subst he
    rw [calcConf_zero engineB0 emptySnapshot (by decide) (by decide)]
    exact jsGt_num_of_le le_rfl)

/-! ### C4: a rejection in `analyze` is NOT caught -/

/-- Counterexample to C4: a profile whose deep-analysis closure rejects makes
the whole classification reject — the error escapes `detectEngine`, the call
does not return a result with empty warnings. -/
theorem analyze_error_escapes_cex :
    detectEngineWith [throwerEngine] oneCanvasSnap =
      Except.error "context probe failed" := by
  have h1 : calculateConfidence throwerEngine oneCanvasSnap = JSNum.num 1 :=
    calcConf_one _ _ (by decide) (by decide)
  have h2 : throwerEngine.analyze oneCanvasSnap =
      Except.error "context probe failed" := rfl
  simp [detectEngineWith, detectLoop, h1, jsGt_one_zero, h2]

/-- C4 amended: when a profile strictly beats the running best and its
deep-analysis closure rejects, the rejection propagates out of the classifier
(there is no local handler). -/
theorem analyze_error_propagates (A : GameEngine) (rest : List GameEngine)
    (S : Snapshot) (msg : String)
    (hpos : jsGt (calculateConfidence A S) (JSNum.num 0) = true)
    (herr : A.analyze S = Except.error msg) :
    detectEngineWith (A :: rest) S = Except.error msg := by
  simp [detectEngineWith, detectLoop, hpos, herr]

/-- Witness for the amended C4 at a concrete registry and snapshot. -/
theorem analyze_error_propagates_witness :
    detectEngineWith [throwerEngine, unityEngine] oneCanvasSnap =
      Except.error "context probe failed" :=
  analyze_error_propagates throwerEngine [unityEngine] oneCanvasSnap
    "context probe failed"
    (by rw [calcConf_one throwerEngine oneCanvasSnap (by decide) (by decide)]
        exact jsGt_one_zero)
    rfl

/-! ### C5: there is no registration-time guard for empty signature lists -/

/-- Counterexample to C5: a profile with an empty signature list is accepted
into a registry, classification runs the scorer on it — the division IS
evaluated with a zero total, yielding NaN — and the call completes normally;
no configuration error is ever raised. -/
theorem registry_no_empty_guard_cex :
    calculateConfidence zeroSigEngine oneCanvasSnap = JSNum.nan ∧
    detectEngineWith [zeroSigEngine] oneCanvasSnap = Except.ok none :=
  ⟨rfl, rfl⟩

/-- C5 amended: registration performs no validation; the zero-signature case
is handled (only) at classification time, where the score evaluates to the
non-number `0/0` and the profile is silently skipped. -/
theorem emptySignatures_deferred (e : GameEngine) (S : Snapshot)
    (h : e.signatures = []) :
    calculateConfidence e S = JSNum.nan ∧
    detectEngineWith [e] S = Except.ok none := by
  have hnan : calculateConfidence e S = JSNum.nan := by
    simp [calculateConfidence, matchCountOf, h, jsDiv]
  refine ⟨hnan, ?_⟩
  simp [detectEngineWith, detectLoop, hnan, jsGt_nan_left]

/-- Witness for the amended C5 at a concrete profile and snapshot. -/
theorem emptySignatures_deferred_witness :
    calculateConfidence zeroSigEngine snap512 = JSNum.nan ∧
    detectEngineWith [zeroSigEngine] snap512 = Except.ok none :=
  emptySignatures_deferred zeroSigEngine snap512 rfl

/-! ### C6: the WebGL probe tries version 1 first, not version 2 -/

/-- Counterexample to C6: on a canvas where both context versions are
available the matcher's context acquisition returns the WebGL 1 context —
WebGL 2 is NOT tried first. -/
theorem webgl_probe_order_cex :
    dualCtxCanvas.webgl2Ctx.isSome = true ∧
    getContextWebGLFirst dualCtxCanvas = some gl1NoExt ∧
    gl1NoExt.isWebGL2 = false ∧
    matchWebGL webglProbeSig dualCtxSnap = true :=
  ⟨rfl, rfl, rfl, rfl⟩

/-- C6 amended: the matcher attempts `'webgl'` (version 1) first and falls
back to `'webgl2'` only when version 1 is unavailable; the signature matches
exactly when either attempt yields a context. -/
theorem matchWebGL_webgl1_first (signature : EngineSignature) (document : Snapshot)
    (canvas : CanvasElem) (g : GLContext)
    (hc : firstCanvas document = some canvas) :
    (matchWebGL signature document = (canvas.webglCtx.isSome || canvas.webgl2Ctx.isSome)) ∧
    (canvas.webglCtx = some g → getContextWebGLFirst canvas = some g) ∧
    (canvas.webglCtx = none → getContextWebGLFirst canvas = canvas.webgl2Ctx) := by
  refine ⟨?_, ?_, ?_⟩
  · cases hw : canvas.webglCtx with
    | some g' => simp [matchWebGL, hc, getContextWebGLFirst, hw]
    | none =>
      cases h2 : canvas.webgl2Ctx with
      | some g' => simp [matchWebGL, hc, getContextWebGLFirst, hw, h2]
      | none => simp [matchWebGL, hc, getContextWebGLFirst, hw, h2]
  · intro hg; simp [getContextWebGLFirst, hg]
  · intro hg; simp [getContextWebGLFirst, hg]

/-- Witness for the amended C6: the dual-context canvas matches and yields the
WebGL 1 context. -/
theorem matchWebGL_webgl1_first_witness :
    matchWebGL webglProbeSig dualCtxSnap =
      (dualCtxCanvas.webglCtx.isSome || dualCtxCanvas.webgl2Ctx.isSome) ∧
    getContextWebGLFirst dualCtxCanvas = some gl1NoExt :=
  ⟨(matchWebGL_webgl1_first webglProbeSig dualCtxSnap dualCtxCanvas gl1NoExt rfl).1,
   (matchWebGL_webgl1_first webglProbeSig dualCtxSnap dualCtxCanvas gl1NoExt rfl).2.1 rfl⟩

/-! ### C7: capability record of a WebGL 2 context with no extensions -/

/-- Counterexample to C7: for a WebGL 2 context reporting no extensions the
prober sets `instancedArrays := true` (WebGL 2 short-circuits the extension
check), so not every optional extension flag is false. -/
theorem capabilities_instanced_cex :
    gl2NoExt.isWebGL2 = true ∧ gl2NoExt.extensions = [] ∧
    (checkWebGLCapabilities gl2NoExt).instancedArrays = true :=
  ⟨rfl, rfl, rfl⟩

/-- C7 amended: for a WebGL 2 context with no relevant extensions the prober
returns `webgl2 = true`, `floatTextures`, `anisotropicFiltering` and
`multiDrawIndirect` all false, `instancedArrays = true` (implied by WebGL 2),
and the numeric limits taken from the context's reported parameters. -/
theorem checkCaps_webgl2_noext (gl : GLContext)
    (h2 : gl.isWebGL2 = true) (hx : gl.extensions = []) :
    checkWebGLCapabilities gl =
      { webgl2 := true, floatTextures := false, anisotropicFiltering := false,
        maxTextureSize := gl.maxTextureSize, maxViewportDims := gl.maxViewportDims,
        instancedArrays := true, multiDrawIndirect := false } := by
  simp [checkWebGLCapabilities, GLContext.getExtension, h2, hx]

/-- Witness for the amended C7 at the concrete extension-free WebGL 2 context. -/
theorem checkCaps_webgl2_noext_witness :
    checkWebGLCapabilities gl2NoExt =
      { webgl2 := true, floatTextures := false, anisotropicFiltering := false,
        maxTextureSize := gl2NoExt.maxTextureSize,
        maxViewportDims := gl2NoExt.maxViewportDims,
        instancedArrays := true, multiDrawIndirect := false } :=
  checkCaps_webgl2_noext gl2NoExt rfl rfl

/-! ### C8: the size matcher inspects only the first canvas -/

/-- Counterexample to C8: a snapshot whose second canvas is exactly 512×512
does NOT match `CanvasSize{512,512}` — only the first canvas is consulted. -/
theorem matchCanvas_first_only_cex :
    twoCanvasSnap.canvases.any (fun c => c.width == 512 && c.height == 512) = true ∧
    matchCanvas sizeSig512 twoCanvasSnap = false :=
  ⟨rfl, rfl⟩

/-- C8 amended: a `CanvasSize{w,h}` signature matches exactly when the FIRST
canvas of the snapshot has width `w` and height `h`; a snapshot whose single
canvas is 512×512 gives the `CanvasSize{512,512}`-only profile score 1. -/
theorem matchCanvas_size_first (signature : EngineSignature) (document : Snapshot)
    (w h : Int) (hsig : signature.size = some { width := w, height := h }) :
    (matchCanvas signature document = true ↔
      ∃ canvas, firstCanvas document = some canvas ∧
        canvas.width = w ∧ canvas.height = h) ∧
    calculateConfidence canvas512Profile snap512 = JSNum.num 1 := by
  constructor
  · cases hc : firstCanvas document with
    | none => simp [matchCanvas, hc]
    | some canvas => simp [matchCanvas, hc, hsig]
  · exact calcConf_one _ _ (by decide) (by decide)

/-- Witness for the amended C8 at the 512×512 snapshot. -/
theorem matchCanvas_size_first_witness :
    (matchCanvas sizeSig512 snap512 = true ↔
      ∃ canvas, firstCanvas snap512 = some canvas ∧
        canvas.width = 512 ∧ canvas.height = 512) ∧
    calculateConfidence canvas512Profile snap512 = JSNum.num 1 :=
  matchCanvas_size_first sizeSig512 snap512 512 512 rfl

/-! ### C9: canvas matchers degrade to false without a canvas -/

/-- C9: with no canvas element, every canvas-pattern and WebGL-probe
signature evaluates to false (both matchers return rather than raising). -/
theorem matchers_false_without_canvas (sigC sigW : EngineSignature)
    (document : Snapshot) (h : document.canvases = []) :
    matchCanvas sigC document = false ∧ matchWebGL sigW document = false := by
  have hf : firstCanvas document = none := by simp [firstCanvas, h]
  exact ⟨by simp [matchCanvas, hf], by simp [matchWebGL, hf]⟩

/-- Witness for C9 on the empty snapshot. -/
theorem matchers_false_without_canvas_witness :
    matchCanvas sizeSig512 emptySnapshot = false ∧
    matchWebGL webglProbeSig emptySnapshot = false :=
  matchers_false_without_canvas sizeSig512 webglProbeSig emptySnapshot rfl

/-! ### C10: empty-signature profiles are harmless at classification time -/

/-- A profile with an empty signature list never changes the loop state: its
NaN score fails the strict comparison against every running best. -/
theorem detectLoop_skip_emptySig (document : Snapshot) (e : GameEngine)
    (h : e.signatures = []) (R2 : List GameEngine) :
    ∀ (R1 : List GameEngine) (best : Option EngineDetectionResult) (high : JSNum),
      detectLoop document (R1 ++ e :: R2) best high =
        detectLoop document (R1 ++ R2) best high := by
  intro R1
  induction R1 with
  | nil =>
    intro best high
    have hnan : calculateConfidence e document = JSNum.nan := by
      simp [calculateConfidence, matchCountOf, h, jsDiv]
    simp [detectLoop, hnan, jsGt_nan_left]
  | cons f rest ih =>
    intro best high
    simp only [List.cons_append, detectLoop]
    cases hc : jsGt (calculateConfidence f document) high with
    | true =>
      cases hf : f.analyze document with
      | error msg => simp [hc, hf]
      | ok w => simp [hc, hf, ih]
    | false => simp [hc, ih]

/-- C10: with an empty-signature profile anywhere in the registry, its score
is the non-number `0/0`, and classification behaves exactly as if the profile
were absent (it terminates the same way and never selects that profile). -/
theorem emptySig_profile_never_best (R1 R2 : List GameEngine) (e : GameEngine)
    (document : Snapshot) (h : e.signatures = []) :
    calculateConfidence e document = JSNum.nan ∧
    detectEngineWith (R1 ++ e :: R2) document = detectEngineWith (R1 ++ R2) document := by
  refine ⟨?_, ?_⟩
  · simp [calculateConfidence, matchCountOf, h, jsDiv]
  · exact detectLoop_skip_emptySig document e h R2 R1 none (JSNum.num 0)

/-- Witness for C10 at a concrete registry and snapshot. -/
theorem emptySig_profile_never_best_witness :
    calculateConfidence zeroSigEngine dualCtxSnap = JSNum.nan ∧
    detectEngineWith [engineA0, zeroSigEngine] dualCtxSnap =
      detectEngineWith [engineA0] dualCtxSnap :=
  emptySig_profile_never_best [engineA0] [] zeroSigEngine dualCtxSnap rfl

end WebGLMCP
